import Mathlib

/-!
Verification development for the hotel-management backend (`src/app.py`,
JSON-file variant).  The data model and every handler the claims touch are
embedded as executable Lean definitions: dictionaries become structures,
the JSON store becomes `HotelData`, each Flask handler becomes a function
`... → Outcome × HotelData` whose returned store is what `save_data` would
have persisted (the input store when `save_data` is not reached), and an
unhandled Python exception becomes `Outcome.crash`.
-/

/-- Calendar date `YYYY-MM-DD` as parsed by `datetime.strptime(s, '%Y-%m-%d')`.
Comparison of `datetime` values is chronological, i.e. lexicographic on
(year, month, day) for parseable dates. -/
structure Date where
  y : Nat
  m : Nat
  d : Nat
deriving DecidableEq, Repr

/-- Chronological (lexicographic) strict order on dates, the meaning of
`<` on parsed `datetime` values in the source. -/
def Date.lt (a b : Date) : Bool :=
  a.y < b.y || (a.y == b.y && (a.m < b.m || (a.m == b.m && a.d < b.d)))

/-- Day count of a proleptic-Gregorian date (days-from-civil), used to embed
`(check_out_date - check_in_date).days`: the difference of `dayNumber`s equals
Python's `timedelta.days` for valid dates with year ≥ 1. -/
def dayNumber (dt : Date) : Nat :=
  let y := if dt.m ≤ 2 then dt.y - 1 else dt.y
  let era := y / 400
  let yoe := y % 400
  let mp := (dt.m + 9) % 12
  let doy := (153 * mp + 2) / 5 + (dt.d - 1)
  let doe := yoe * 365 + yoe / 4 - yoe / 100 + doy
  era * 146097 + doe

/-- Number of nights `(check_out - check_in).days` as the source computes it
(an `Int`: it is negative when check-out precedes check-in). -/
def nightsBetween (check_in check_out : Date) : Int :=
  (dayNumber check_out : Int) - (dayNumber check_in : Int)

/-- A room record of `hotel_data.json` (`load_data`, src/app.py:135-153).
Prices are embedded as integers; the claims need no fractional prices. -/
structure Room where
  room_number : Nat
  name : String
  price : Int
  room_type : String
deriving DecidableEq, Repr

/-- A reservation dict as built by `create_reservation` (src/app.py:457-474).
`checked_in_at` is `none` always: no handler of src/app.py ever writes such a
key; `checkout_time` is the key `checkout_guest` stamps on check-out.
Timestamps (`datetime.now().isoformat()`) are opaque strings supplied by the
caller. -/
structure Reservation where
  id : Nat
  guest_name : String
  guest_email : String
  guest_phone : String
  room_number : Nat
  room_name : String
  check_in_date : Date
  check_out_date : Date
  nights : Int
  total_price : Int
  amount_paid : Int
  payment_status : String
  status : String
  created_at : String
  checked_in_at : Option String
  checkout_time : Option String
  notes : String
deriving DecidableEq, Repr

/-- One entry of `guest_history` as appended by `checkout_guest`
(src/app.py:574-579). -/
structure HistEntry where
  check_in : Date
  check_out : Date
  room : String
  total_paid : Int
deriving DecidableEq, Repr

/-- The persisted store `hotel_data.json`: rooms, reservations and the
guest-history dict (an association list keyed by guest name). -/
structure HotelData where
  rooms : List Room
  reservations : List Reservation
  guest_history : List (String × List HistEntry)
deriving DecidableEq, Repr

/-- The default store `load_data` creates when no data file exists
(src/app.py:141-151): five seeded rooms, no reservations, empty history. -/
def default_data : HotelData :=
  { rooms := [
      { room_number := 101, name := "AP. 2A sgr.1", price := 70, room_type := "Studio" },
      { room_number := 102, name := "AT.14 sgr.1", price := 70, room_type := "Studio" },
      { room_number := 103, name := "AP.12 sgr.4", price := 75, room_type := "Studio" },
      { room_number := 104, name := "AT.14 sgr.4", price := 75, room_type := "Studio" },
      { room_number := 105, name := "AT.6A sgr.2", price := 80, room_type := "Studio" }],
    reservations := [],
    guest_history := [] }

/-- Result of a handler: a success (with the reservation the JSON response
carries, when it carries one), an HTTP error (status code and message), or an
unhandled Python exception (`crash`). -/
inductive Outcome where
  | ok : Outcome
  | okRes : Reservation → Outcome
  | err : Nat → String → Outcome
  | crash : String → Outcome
deriving DecidableEq, Repr

/-- `check_booking_conflict(reservations, room_number, check_in, check_out,
exclude_id)` (src/app.py:654-676): the for-loop with `continue`s is the
disjunction over reservations of the conjunction of the non-skipped tests.
Only status `'completed'` is skipped; the overlap test is
`new_checkin < existing_checkout and new_checkout > existing_checkin`. -/
def check_booking_conflict (reservations : List Reservation) (room_number : Nat)
    (check_in check_out : Date) (exclude_id : Option Nat) : Bool :=
  reservations.any (fun r =>
    !(some r.id == exclude_id) &&
    r.room_number == room_number &&
    !(r.status == "completed") &&
    Date.lt check_in r.check_out_date &&
    Date.lt r.check_in_date check_out)

/-- The JSON body of `POST /api/reservations`: `none` = key absent from the
request dict.  `guest_name`, `room_number`, `check_in_date`, `check_out_date`
are the required fields; the rest default via `.get` in the source. -/
structure CreateReq where
  guest_name : Option String
  room_number : Option Nat
  check_in_date : Option Date
  check_out_date : Option Date
  guest_email : Option String
  guest_phone : Option String
  amount_paid : Option Int
  payment_status : Option String
  notes : Option String
deriving DecidableEq, Repr

/-- `create_reservation` (src/app.py:425-479): required-field check in source
order, then conflict check, then room lookup (404), then the reservation dict
is built with `id = len(reservations) + 1` and status `'pending'` and
appended; `now` stands for `datetime.now().isoformat()`. -/
def create_reservation (now : String) (data : HotelData) (rd : CreateReq) :
    Outcome × HotelData :=
  match rd.guest_name with
  | none => (Outcome.err 400 "Missing field: guest_name", data)
  | some gname =>
  match rd.room_number with
  | none => (Outcome.err 400 "Missing field: room_number", data)
  | some room_number =>
  match rd.check_in_date with
  | none => (Outcome.err 400 "Missing field: check_in_date", data)
  | some check_in =>
  match rd.check_out_date with
  | none => (Outcome.err 400 "Missing field: check_out_date", data)
  | some check_out =>
  if check_booking_conflict data.reservations room_number check_in check_out none then
    (Outcome.err 400 "Room is already booked for these dates", data)
  else
    match data.rooms.find? (fun r => r.room_number == room_number) with
    | none => (Outcome.err 404 "Room not found", data)
    | some room =>
      let nights := nightsBetween check_in check_out
      let reservation : Reservation :=
        { id := data.reservations.length + 1,
          guest_name := gname,
          guest_email := rd.guest_email.getD "",
          guest_phone := rd.guest_phone.getD "",
          room_number := room_number,
          room_name := room.name,
          check_in_date := check_in,
          check_out_date := check_out,
          nights := nights,
          total_price := room.price * nights,
          amount_paid := rd.amount_paid.getD 0,
          payment_status := rd.payment_status.getD "pending",
          status := "pending",
          created_at := now,
          checked_in_at := none,
          checkout_time := none,
          notes := rd.notes.getD "" }
      (Outcome.okRes reservation,
        { data with reservations := data.reservations ++ [reservation] })

/-- The JSON body of `PUT /api/reservations/<id>`: every key optional. -/
structure UpdateReq where
  guest_name : Option String
  guest_email : Option String
  guest_phone : Option String
  notes : Option String
  amount_paid : Option Int
  payment_status : Option String
  status : Option String
  check_in_date : Option Date
  check_out_date : Option Date
  room_number : Option Nat
deriving DecidableEq, Repr

/-- The patch with every key absent. -/
def emptyUpdate : UpdateReq :=
  { guest_name := none, guest_email := none, guest_phone := none, notes := none,
    amount_paid := none, payment_status := none, status := none,
    check_in_date := none, check_out_date := none, room_number := none }

/-- The simple-field loop of `update_reservation` (src/app.py:492-495): each
of the seven listed keys present in the patch overwrites the reservation's
field. -/
def applyScalarUpdate (r : Reservation) (u : UpdateReq) : Reservation :=
  { r with
    guest_name := u.guest_name.getD r.guest_name,
    guest_email := u.guest_email.getD r.guest_email,
    guest_phone := u.guest_phone.getD r.guest_phone,
    notes := u.notes.getD r.notes,
    amount_paid := u.amount_paid.getD r.amount_paid,
    payment_status := u.payment_status.getD r.payment_status,
    status := u.status.getD r.status }

/-- The `for i, reservation in enumerate(...)` loop of `update_reservation`
(src/app.py:489-525), acting on the first reservation whose `id` matches.
`pre` is the already-scanned prefix.  On the conflict branch the handler
returns before `save_data`, so the persisted list is the original one; a
patch naming a room that does not exist makes `room['name']` raise a
`TypeError` on `None` (`crash`), also before any save. -/
def update_loop (rooms : List Room) (rid : Nat) (u : UpdateReq)
    (pre : List Reservation) : List Reservation → Outcome × List Reservation
  | [] => (Outcome.err 404 "Reservation not found", pre)
  | r :: rest =>
    if r.id == rid then
      let r1 := applyScalarUpdate r u
      if u.check_in_date.isSome || u.check_out_date.isSome || u.room_number.isSome then
        let check_in := u.check_in_date.getD r1.check_in_date
        let check_out := u.check_out_date.getD r1.check_out_date
        let room_number := u.room_number.getD r1.room_number
        if check_booking_conflict (pre ++ r1 :: rest) room_number check_in check_out
            (some rid) then
          (Outcome.err 400 "Room already booked for these dates", pre ++ r :: rest)
        else
          match rooms.find? (fun rm => rm.room_number == room_number) with
          | none =>
            (Outcome.crash "TypeError: 'NoneType' object is not subscriptable",
              pre ++ r :: rest)
          | some room =>
            let nights := nightsBetween check_in check_out
            let r2 := { r1 with
              check_in_date := check_in,
              check_out_date := check_out,
              room_number := room_number,
              room_name := room.name,
              nights := nights,
              total_price := room.price * nights }
            (Outcome.okRes r2, pre ++ r2 :: rest)
      else
        (Outcome.okRes r1, pre ++ r1 :: rest)
    else
      update_loop rooms rid u (pre ++ [r]) rest

/-- `update_reservation` (src/app.py:482-525). -/
def update_reservation (data : HotelData) (rid : Nat) (u : UpdateReq) :
    Outcome × HotelData :=
  let (o, l) := update_loop data.rooms rid u [] data.reservations
  (o, { data with reservations := l })

/-- The loop of `delete_reservation` (src/app.py:534-538): pops the first
reservation whose `id` matches. -/
def delete_loop (rid : Nat) (pre : List Reservation) :
    List Reservation → Outcome × List Reservation
  | [] => (Outcome.err 404 "Reservation not found", pre)
  | r :: rest =>
    if r.id == rid then (Outcome.ok, pre ++ rest)
    else delete_loop rid (pre ++ [r]) rest

/-- `delete_reservation` (src/app.py:528-540). -/
def delete_reservation (data : HotelData) (rid : Nat) : Outcome × HotelData :=
  let (o, l) := delete_loop rid [] data.reservations
  (o, { data with reservations := l })

/-- The loop of `checkin_guest` (src/app.py:549-553): the first matching
reservation gets status `'active'`; nothing else is written (in particular no
check-in timestamp). -/
def checkin_loop (rid : Nat) (pre : List Reservation) :
    List Reservation → Outcome × List Reservation
  | [] => (Outcome.err 404 "Reservation not found", pre)
  | r :: rest =>
    if r.id == rid then
      let r1 := { r with status := "active" }
      (Outcome.okRes r1, pre ++ r1 :: rest)
    else checkin_loop rid (pre ++ [r]) rest

/-- `checkin_guest` (src/app.py:543-555). -/
def checkin_guest (data : HotelData) (rid : Nat) : Outcome × HotelData :=
  let (o, l) := checkin_loop rid [] data.reservations
  (o, { data with reservations := l })

/-- `data['guest_history']` update of `checkout_guest` (src/app.py:569-579):
a missing guest key is created, then the stay entry is appended. -/
def addHistory (h : List (String × List HistEntry)) (gname : String)
    (e : HistEntry) : List (String × List HistEntry) :=
  if h.any (fun p => p.1 == gname) then
    h.map (fun p => if p.1 == gname then (p.1, p.2 ++ [e]) else p)
  else
    h ++ [(gname, [e])]

/-- The loop of `checkout_guest` (src/app.py:564-582): the first matching
reservation gets status `'completed'` and a `checkout_time` stamp, and its
stay is reported for the guest-history append. -/
def checkout_loop (now : String) (rid : Nat) (pre : List Reservation) :
    List Reservation → Outcome × List Reservation × Option (String × HistEntry)
  | [] => (Outcome.err 404 "Reservation not found", pre, none)
  | r :: rest =>
    if r.id == rid then
      let r1 := { r with status := "completed", checkout_time := some now }
      (Outcome.okRes r1, pre ++ r1 :: rest,
        some (r.guest_name,
          { check_in := r.check_in_date, check_out := r.check_out_date,
            room := r.room_name, total_paid := r.amount_paid }))
    else checkout_loop now rid (pre ++ [r]) rest

/-- `checkout_guest` (src/app.py:558-584); `now` stands for
`datetime.now().isoformat()`. -/
def checkout_guest (now : String) (data : HotelData) (rid : Nat) :
    Outcome × HotelData :=
  match checkout_loop now rid [] data.reservations with
  | (Outcome.okRes r1, l, some (gname, e)) =>
    (Outcome.okRes r1,
      { data with reservations := l, guest_history := addHistory data.guest_history gname e })
  | (o, _, _) => (o, data)

/-- `get_reservations` (src/app.py:417-422): the whole reservation list of the
single shared store. -/
def get_reservations (data : HotelData) : List Reservation :=
  data.reservations

/-- `get_calendar_data` (src/app.py:591-611): a reservation is listed for
(year, month) iff `check_in_date.startswith(month_str)` or
`check_out_date.startswith(month_str)` where `month_str = f"{year}-{month:02d}"`;
on `YYYY-MM-DD` strings that prefix test is equality of year and month.  No
status is filtered. -/
def get_calendar_data (data : HotelData) (year month : Nat) : List Reservation :=
  data.reservations.filter (fun r =>
    (r.check_in_date.y == year && r.check_in_date.m == month) ||
    (r.check_out_date.y == year && r.check_out_date.m == month))

/-- The JSON body of `PUT /api/rooms/<room_number>`. -/
structure RoomUpdateReq where
  name : Option String
  price : Option Int
  room_type : Option String
deriving DecidableEq, Repr

/-- `update_room` (src/app.py:391-410): patches the first room whose number
matches, else 404. -/
def update_room (data : HotelData) (room_number : Nat) (u : RoomUpdateReq) :
    Outcome × HotelData :=
  if data.rooms.any (fun r => r.room_number == room_number) then
    (Outcome.ok,
      { data with rooms := data.rooms.map (fun r =>
          if r.room_number == room_number then
            { r with
              name := u.name.getD r.name,
              price := u.price.getD r.price,
              room_type := u.room_type.getD r.room_type }
          else r) })
  else
    (Outcome.err 404 "Room not found", data)

/-- `login_required` (src/app.py:94-102) only checks that a user is
authenticated; the wrapped handlers never receive or consult the caller's
identity.  These wrappers make that explicit: `user` is the authenticated
principal. -/
def api_get_reservations (user : String) (data : HotelData) : List Reservation :=
  let _ := user
  get_reservations data

/-- `POST /api/reservations` as seen by an authenticated `user`. -/
def api_create_reservation (user : String) (now : String) (data : HotelData)
    (rd : CreateReq) : Outcome × HotelData :=
  let _ := user
  create_reservation now data rd

/-- `PUT /api/reservations/<id>` as seen by an authenticated `user`. -/
def api_update_reservation (user : String) (data : HotelData) (rid : Nat)
    (u : UpdateReq) : Outcome × HotelData :=
  let _ := user
  update_reservation data rid u

/-- `DELETE /api/reservations/<id>` as seen by an authenticated `user`. -/
def api_delete_reservation (user : String) (data : HotelData) (rid : Nat) :
    Outcome × HotelData :=
  let _ := user
  delete_reservation data rid

/-- `PUT /api/rooms/<room_number>` as seen by an authenticated `user`. -/
def api_update_room (user : String) (data : HotelData) (room_number : Nat)
    (u : RoomUpdateReq) : Outcome × HotelData :=
  let _ := user
  update_room data room_number u

/-- One API mutation against the shared store; `Op.createRes`/`Op.checkoutRes`
carry the wall-clock string the handler would read. -/
inductive Op where
  | createRes : String → CreateReq → Op
  | updateRes : Nat → UpdateReq → Op
  | deleteRes : Nat → Op
  | checkinRes : Nat → Op
  | checkoutRes : String → Nat → Op
deriving DecidableEq, Repr

/-- Dispatch one operation, yielding its outcome and the persisted store. -/
def applyOp (data : HotelData) : Op → Outcome × HotelData
  | Op.createRes now req => create_reservation now data req
  | Op.updateRes rid u => update_reservation data rid u
  | Op.deleteRes rid => delete_reservation data rid
  | Op.checkinRes rid => checkin_guest data rid
  | Op.checkoutRes now rid => checkout_guest now data rid

/-- The store after a sequence of API operations. -/
def runOps (data : HotelData) : List Op → HotelData
  | [] => data
  | op :: ops => runOps (applyOp data op).2 ops

/-! ## Claim-level definitions -/

/-- A fully-populated create request (all required keys present, optional keys
absent), the shape of a typical `POST /api/reservations` body. -/
def mkCreateReq (g : String) (rn : Nat) (ci co : Date) : CreateReq :=
  { guest_name := some g, room_number := some rn, check_in_date := some ci,
    check_out_date := some co, guest_email := none, guest_phone := none,
    amount_paid := none, payment_status := none, notes := none }

/-- A reservation is non-terminal when its status is neither `completed` nor
`cancelled` (the spec's terminal states). -/
def nonTerminal (r : Reservation) : Prop :=
  r.status ≠ "completed" ∧ r.status ≠ "cancelled"

instance (r : Reservation) : Decidable (nonTerminal r) := by
  unfold nonTerminal
  infer_instance

/-- Half-open interval overlap of two reservations' date ranges:
`A < D` and `C < B`. -/
def overlapping (r1 r2 : Reservation) : Prop :=
  Date.lt r1.check_in_date r2.check_out_date = true ∧
  Date.lt r2.check_in_date r1.check_out_date = true

instance (r1 r2 : Reservation) : Decidable (overlapping r1 r2) := by
  unfold overlapping
  infer_instance

/-- The spec's §8 invariant: on each room, no two non-terminal reservations
have overlapping half-open intervals. -/
def noDoubleBooking (l : List Reservation) : Prop :=
  l.Pairwise (fun r1 r2 => r1.room_number = r2.room_number →
    nonTerminal r1 → nonTerminal r2 → ¬ overlapping r1 r2)

instance (l : List Reservation) : Decidable (noDoubleBooking l) := by
  unfold noDoubleBooking
  exact List.instDecidablePairwise l

/-- Modelled from the spec: conflict for room `R` and range `[A, B)` iff some
other reservation on `R`, not excluded by identity and with status neither
`completed` nor `cancelled`, has range `[C, D)` with `A < D` and `B > C`
(the predicate the claim asserts `check_booking_conflict` computes). -/
def specConflict (reservations : List Reservation) (room_number : Nat)
    (check_in check_out : Date) (exclude_id : Option Nat) : Prop :=
  ∃ r ∈ reservations, some r.id ≠ exclude_id ∧ r.room_number = room_number ∧
    r.status ≠ "completed" ∧ r.status ≠ "cancelled" ∧
    Date.lt check_in r.check_out_date = true ∧
    Date.lt r.check_in_date check_out = true

/-- Date.lt is irreflexive: a date is not chronologically before itself. -/
theorem Date.lt_irrefl (d : Date) : Date.lt d d = false := by
  simp [Date.lt]

/-! ## C1 — conflict detection -/

/-- A cancelled reservation on room 101 over [2024-06-01, 2024-06-05). -/
def rCancelled : Reservation :=
  { id := 1, guest_name := "Carol", guest_email := "", guest_phone := "",
    room_number := 101, room_name := "AP. 2A sgr.1",
    check_in_date := ⟨2024, 6, 1⟩, check_out_date := ⟨2024, 6, 5⟩,
    nights := 4, total_price := 280, amount_paid := 0,
    payment_status := "pending", status := "cancelled",
    created_at := "t0", checked_in_at := none, checkout_time := none,
    notes := "" }

/-- C1 counterexample: against a single `cancelled` reservation on the same
room and dates, `check_booking_conflict` reports a conflict although the
claim's predicate (which excludes `cancelled`) does not, so the claimed
iff fails at this input. -/
theorem conflict_counts_cancelled_cex :
    ¬ (check_booking_conflict [rCancelled] 101 ⟨2024, 6, 1⟩ ⟨2024, 6, 5⟩ none = true ↔
       specConflict [rCancelled] 101 ⟨2024, 6, 1⟩ ⟨2024, 6, 5⟩ none) := by
  unfold specConflict
  decide

/-- C1 amended: `check_booking_conflict` returns a conflict for room `R` and
range `[A, B)` iff some reservation on `R`, not excluded by identity and with
status other than `completed` (a `cancelled` one still counts), has range
`[C, D)` with `A < D` and `B > C`; and boundary equality (`B = C` or `A = D`)
alone is never a conflict. -/
theorem conflict_iff_overlap_excluding_completed :
    (∀ (l : List Reservation) (room : Nat) (A B : Date) (ex : Option Nat),
      check_booking_conflict l room A B ex = true ↔
        ∃ r ∈ l, some r.id ≠ ex ∧ r.room_number = room ∧ r.status ≠ "completed" ∧
          Date.lt A r.check_out_date = true ∧ Date.lt r.check_in_date B = true) ∧
    (∀ (room : Nat) (A : Date) (ex : Option Nat) (r : Reservation),
      check_booking_conflict [r] room A r.check_in_date ex = false) ∧
    (∀ (room : Nat) (B : Date) (ex : Option Nat) (r : Reservation),
      check_booking_conflict [r] room r.check_out_date B ex = false) := by
  refine ⟨fun l room A B ex => ?_, fun room A ex r => ?_, fun room B ex r => ?_⟩
  · simp [check_booking_conflict, List.any_eq_true, Bool.and_eq_true,
      Bool.not_eq_true', beq_eq_false_iff_ne, and_assoc]
  · simp [check_booking_conflict, Date.lt_irrefl]
  · simp [check_booking_conflict, Date.lt_irrefl]

/-! ## C2 — the no-double-booking invariant -/

/-- When `check_booking_conflict` reports no conflict, no non-completed
reservation of the list on the candidate room overlaps the proposed range. -/
theorem conflict_false_no_overlap {l : List Reservation} {room : Nat}
    {ci co : Date}
    (h : check_booking_conflict l room ci co none = false) :
    ∀ r ∈ l, r.room_number = room → r.status ≠ "completed" →
      ¬ (Date.lt ci r.check_out_date = true ∧ Date.lt r.check_in_date co = true) := by
  intro r hr hroom hstat hov
  simp only [check_booking_conflict, List.any_eq_false] at h
  have := h r hr
  simp [hroom, hstat, hov.1, hov.2] at this

/-- A successful create appends a `pending` reservation that passed the
conflict check, so the invariant survives; a failed create leaves the list
unchanged. -/
theorem create_preserves_ndb (now : String) (data : HotelData) (rd : CreateReq)
    (h : noDoubleBooking data.reservations) :
    noDoubleBooking (create_reservation now data rd).2.reservations := by
  unfold create_reservation
  repeat' split
  any_goals exact h
  rename_i hcf _ room hroom
  rw [Bool.not_eq_true] at hcf
  show noDoubleBooking (data.reservations ++ [_])
  rw [noDoubleBooking, List.pairwise_append]
  refine ⟨h, List.pairwise_singleton _ _, ?_⟩
  intro a ha b hb
  simp only [List.mem_singleton] at hb
  subst hb
  intro haroom hA _ hov
  exact conflict_false_no_overlap hcf a ha haroom hA.1 ⟨hov.2, hov.1⟩

/-- The list `delete_reservation`'s loop leaves behind is a sublist of the
scanned prefix plus the remainder. -/
theorem delete_loop_sublist (rid : Nat) :
    ∀ (rest pre : List Reservation),
      List.Sublist (delete_loop rid pre rest).2 (pre ++ rest) := by
  intro rest
  induction rest with
  | nil => intro pre; simp [delete_loop]
  | cons r rest ih =>
    intro pre
    unfold delete_loop
    split
    · exact List.Sublist.append_left (List.sublist_cons_self r rest) pre
    · simpa [List.append_assoc] using ih (pre ++ [r])

/-- Deleting a reservation (or failing to find it) preserves the invariant. -/
theorem delete_preserves_ndb (data : HotelData) (rid : Nat)
    (h : noDoubleBooking data.reservations) :
    noDoubleBooking (delete_reservation data rid).2.reservations := by
  unfold delete_reservation
  exact List.Pairwise.sublist (by simpa using delete_loop_sublist rid data.reservations []) h

/-- Test whether an operation is a create or a delete. -/
def isCreateOrDelete : Op → Bool
  | Op.createRes _ _ => true
  | Op.deleteRes _ => true
  | _ => false

/-- The sequence violating the invariant: create on room 101, mark it
`completed` via a status-only update, create an identical reservation (the
terminal one is skipped by the conflict check), then resurrect the first to
`pending` via another status-only update — which triggers no conflict check. -/
def badOps : List Op :=
  [Op.createRes "t1" (mkCreateReq "A" 101 ⟨2024, 6, 1⟩ ⟨2024, 6, 5⟩),
   Op.updateRes 1 { emptyUpdate with status := some "completed" },
   Op.createRes "t2" (mkCreateReq "B" 101 ⟨2024, 6, 1⟩ ⟨2024, 6, 5⟩),
   Op.updateRes 1 { emptyUpdate with status := some "pending" }]

/-- C2 counterexample: after `badOps` (creates and updates only, from the
empty store) the committed store holds two `pending` reservations on room 101
with identical date ranges, so the claimed invariant fails. -/
theorem no_double_booking_violated_cex :
    ¬ noDoubleBooking (runOps default_data badOps).reservations := by
  decide

/-- C2 amended: the invariant does hold after any sequence of create and
delete operations (from any store satisfying it); it is status-changing
updates that can break it, as the counterexample shows. -/
theorem create_delete_preserve_no_double_booking :
    ∀ (ops : List Op) (data : HotelData),
      (∀ op ∈ ops, isCreateOrDelete op = true) →
      noDoubleBooking data.reservations →
      noDoubleBooking (runOps data ops).reservations := by
  intro ops
  induction ops with
  | nil => intro data _ h; exact h
  | cons op ops ih =>
    intro data hops h
    have hop := hops op (List.mem_cons_self op ops)
    have hrest := fun o ho => hops o (List.mem_cons_of_mem op ho)
    cases op with
    | createRes now req => exact ih _ hrest (create_preserves_ndb now data req h)
    | deleteRes rid => exact ih _ hrest (delete_preserves_ndb data rid h)
    | updateRes rid u => simp [isCreateOrDelete] at hop
    | checkinRes rid => simp [isCreateOrDelete] at hop
    | checkoutRes now rid => simp [isCreateOrDelete] at hop

/-- Witness for the amended C2 theorem at a concrete input: a create followed
by a delete, starting from the default store. -/
theorem create_delete_preserve_witness :
    noDoubleBooking (runOps default_data
      [Op.createRes "t1" (mkCreateReq "A" 101 ⟨2024, 6, 1⟩ ⟨2024, 6, 5⟩),
       Op.deleteRes 1]).reservations :=
  create_delete_preserve_no_double_booking
    [Op.createRes "t1" (mkCreateReq "A" 101 ⟨2024, 6, 1⟩ ⟨2024, 6, 5⟩),
     Op.deleteRes 1] default_data (by decide) (by decide)

/-! ## C3 — tenant isolation -/

/-- The store after user "bob" creates a reservation on room 101. -/
def bobStore : HotelData :=
  (api_create_reservation "bob" "t1" default_data
    (mkCreateReq "Bob Guest" 101 ⟨2024, 6, 1⟩ ⟨2024, 6, 5⟩)).2

/-- C3 counterexample: user "alice" deletes by identifier the reservation user
"bob" created — the call succeeds (it does not return NotFound) and removes
the record, and "alice" also reads it via the listing; the claimed isolation
fails at this input. -/
theorem cross_user_delete_succeeds_cex :
    bobStore.reservations.length = 1 ∧
    (api_delete_reservation "alice" bobStore 1).1 = Outcome.ok ∧
    (api_delete_reservation "alice" bobStore 1).1 ≠
      Outcome.err 404 "Reservation not found" ∧
    (api_delete_reservation "alice" bobStore 1).2.reservations = [] ∧
    api_get_reservations "alice" bobStore = bobStore.reservations := by
  refine ⟨rfl, rfl, ?_, rfl, rfl⟩
  decide

/-- C3 amended: the service has no tenant scoping at all — every handler's
outcome and resulting store are independent of the authenticated caller's
identity, so any authenticated user reads, updates and deletes any room or
reservation of the single shared store (as the concrete cross-user calls
show). -/
theorem api_ignores_caller_identity :
    (∀ (u1 u2 : String) (data : HotelData),
      api_get_reservations u1 data = api_get_reservations u2 data) ∧
    (∀ (u1 u2 now : String) (data : HotelData) (rd : CreateReq),
      api_create_reservation u1 now data rd = api_create_reservation u2 now data rd) ∧
    (∀ (u1 u2 : String) (data : HotelData) (rid : Nat) (u : UpdateReq),
      api_update_reservation u1 data rid u = api_update_reservation u2 data rid u) ∧
    (∀ (u1 u2 : String) (data : HotelData) (rid : Nat),
      api_delete_reservation u1 data rid = api_delete_reservation u2 data rid) ∧
    (∀ (u1 u2 : String) (data : HotelData) (rn : Nat) (ru : RoomUpdateReq),
      api_update_room u1 data rn ru = api_update_room u2 data rn ru) ∧
    (api_update_reservation "alice" bobStore 1
      { emptyUpdate with guest_name := some "Taken Over" }).2.reservations.map
      Reservation.guest_name = ["Taken Over"] :=
  ⟨fun _ _ _ => rfl, fun _ _ _ _ _ => rfl, fun _ _ _ _ _ => rfl,
   fun _ _ _ _ => rfl, fun _ _ _ _ _ => rfl, by decide⟩

/-! ## C4 — missing date-range validation on create -/

/-- The reservation `create_reservation` stores for an equal-dates request on
room 101 of the default store: zero nights, zero price, status `pending`. -/
def resEqualDates : Reservation :=
  { id := 1, guest_name := "Alice", guest_email := "", guest_phone := "",
    room_number := 101, room_name := "AP. 2A sgr.1",
    check_in_date := ⟨2024, 6, 1⟩, check_out_date := ⟨2024, 6, 1⟩,
    nights := 0, total_price := 0, amount_paid := 0,
    payment_status := "pending", status := "pending",
    created_at := "t0", checked_in_at := none, checkout_time := none,
    notes := "" }

/-- C4 counterexample: a create request with `check_out_date = check_in_date`
(nights = 0) does not fail — the handler returns success and commits the
zero-night reservation. -/
theorem create_equal_dates_accepted_cex :
    (create_reservation "t0" default_data
      (mkCreateReq "Alice" 101 ⟨2024, 6, 1⟩ ⟨2024, 6, 1⟩)).1 =
      Outcome.okRes resEqualDates ∧
    (create_reservation "t0" default_data
      (mkCreateReq "Alice" 101 ⟨2024, 6, 1⟩ ⟨2024, 6, 1⟩)).2.reservations =
      [resEqualDates] := by
  exact ⟨rfl, rfl⟩

/-- C4 amended: `create_reservation` performs no date-ordering validation at
all — whenever the required fields are present, no conflict is reported and
the room exists, the reservation is created even though check-out is not
after check-in, with `nights = (check_out - check_in).days ≤ 0` stored
as computed. -/
theorem create_skips_range_validation :
    ∀ (now g : String) (data : HotelData) (room : Room) (ci co : Date),
      Date.lt ci co = false →
      check_booking_conflict data.reservations room.room_number ci co none = false →
      data.rooms.find? (fun r => r.room_number == room.room_number) = some room →
      ∃ res, create_reservation now data (mkCreateReq g room.room_number ci co) =
        (Outcome.okRes res,
          { data with reservations := data.reservations ++ [res] }) ∧
        res.nights = nightsBetween ci co ∧
        res.total_price = room.price * nightsBetween ci co ∧
        res.status = "pending" := by
  intro now g data room ci co _ hcf hfind
  refine ⟨{ id := data.reservations.length + 1, guest_name := g, guest_email := "",
            guest_phone := "", room_number := room.room_number, room_name := room.name,
            check_in_date := ci, check_out_date := co, nights := nightsBetween ci co,
            total_price := room.price * nightsBetween ci co, amount_paid := 0,
            payment_status := "pending", status := "pending", created_at := now,
            checked_in_at := none, checkout_time := none, notes := "" },
          ?_, rfl, rfl, rfl⟩
  simp only [create_reservation, mkCreateReq, hcf, hfind]
  rfl

/-- Witness for the amended C4 theorem: equal dates on room 101 of the
default store. -/
theorem create_skips_range_validation_witness :
    ∃ res, create_reservation "t0" default_data
        (mkCreateReq "Alice" 101 ⟨2024, 6, 1⟩ ⟨2024, 6, 1⟩) =
        (Outcome.okRes res,
          { default_data with reservations := default_data.reservations ++ [res] }) ∧
      res.nights = nightsBetween ⟨2024, 6, 1⟩ ⟨2024, 6, 1⟩ ∧
      res.total_price = 70 * nightsBetween ⟨2024, 6, 1⟩ ⟨2024, 6, 1⟩ ∧
      res.status = "pending" :=
  create_skips_range_validation "t0" "Alice" default_data
    { room_number := 101, name := "AP. 2A sgr.1", price := 70, room_type := "Studio" }
    ⟨2024, 6, 1⟩ ⟨2024, 6, 1⟩ (by decide) (by decide) (by decide)

/-! ## C5 — no partial writes on validation errors -/

/-- Each error exit of `create_reservation` happens before `save_data`, so it
persists the input store. -/
theorem create_err_unchanged (now : String) (data : HotelData) (rd : CreateReq)
    (c : Nat) (m : String) :
    (create_reservation now data rd).1 = Outcome.err c m →
    (create_reservation now data rd).2 = data := by
  unfold create_reservation
  repeat' split
  all_goals intro h
  all_goals first | rfl | simp at h

/-- An erroring `update_loop` hands back the untouched original list. -/
theorem update_loop_err (rooms : List Room) (rid : Nat) (u : UpdateReq) :
    ∀ (rest pre : List Reservation) (c : Nat) (m : String),
      (update_loop rooms rid u pre rest).1 = Outcome.err c m →
      (update_loop rooms rid u pre rest).2 = pre ++ rest := by
  intro rest
  induction rest with
  | nil => intro pre c m _; simp [update_loop]
  | cons r rest ih =>
    intro pre c m
    simp only [update_loop]
    split
    · split
      · split
        · intro _; rfl
        · split
          · intro h; simp at h
          · intro h; simp at h
      · intro h; simp at h
    · intro h
      simpa [List.append_assoc] using ih (pre ++ [r]) c m h

/-- An erroring `delete_loop` hands back the untouched original list. -/
theorem delete_loop_err (rid : Nat) :
    ∀ (rest pre : List Reservation) (c : Nat) (m : String),
      (delete_loop rid pre rest).1 = Outcome.err c m →
      (delete_loop rid pre rest).2 = pre ++ rest := by
  intro rest
  induction rest with
  | nil => intro pre c m _; simp [delete_loop]
  | cons r rest ih =>
    intro pre c m
    simp only [delete_loop]
    split
    · intro h; simp at h
    · intro h
      simpa [List.append_assoc] using ih (pre ++ [r]) c m h

/-- An erroring `checkin_loop` hands back the untouched original list. -/
theorem checkin_loop_err (rid : Nat) :
    ∀ (rest pre : List Reservation) (c : Nat) (m : String),
      (checkin_loop rid pre rest).1 = Outcome.err c m →
      (checkin_loop rid pre rest).2 = pre ++ rest := by
  intro rest
  induction rest with
  | nil => intro pre c m _; simp [checkin_loop]
  | cons r rest ih =>
    intro pre c m
    simp only [checkin_loop]
    split
    · intro h; simp at h
    · intro h
      simpa [List.append_assoc] using ih (pre ++ [r]) c m h

/-- An erroring `update_reservation` persists the input store. -/
theorem update_err_unchanged (data : HotelData) (rid : Nat) (u : UpdateReq)
    (c : Nat) (m : String)
    (h : (update_reservation data rid u).1 = Outcome.err c m) :
    (update_reservation data rid u).2 = data := by
  have h2 := update_loop_err data.rooms rid u data.reservations [] c m
  rcases hul : update_loop data.rooms rid u [] data.reservations with ⟨o, l⟩
  rw [hul] at h2
  unfold update_reservation at h ⊢
  rw [hul] at h ⊢
  simp only [] at h ⊢
  have hl : l = data.reservations := by simpa using h2 (by simpa using h)
  rw [hl]

/-- An erroring `delete_reservation` persists the input store. -/
theorem delete_err_unchanged (data : HotelData) (rid : Nat)
    (c : Nat) (m : String)
    (h : (delete_reservation data rid).1 = Outcome.err c m) :
    (delete_reservation data rid).2 = data := by
  have h2 := delete_loop_err rid data.reservations [] c m
  rcases hul : delete_loop rid [] data.reservations with ⟨o, l⟩
  rw [hul] at h2
  unfold delete_reservation at h ⊢
  rw [hul] at h ⊢
  simp only [] at h ⊢
  have hl : l = data.reservations := by simpa using h2 (by simpa using h)
  rw [hl]

/-- An erroring `checkin_guest` persists the input store. -/
theorem checkin_err_unchanged (data : HotelData) (rid : Nat)
    (c : Nat) (m : String)
    (h : (checkin_guest data rid).1 = Outcome.err c m) :
    (checkin_guest data rid).2 = data := by
  have h2 := checkin_loop_err rid data.reservations [] c m
  rcases hul : checkin_loop rid [] data.reservations with ⟨o, l⟩
  rw [hul] at h2
  unfold checkin_guest at h ⊢
  rw [hul] at h ⊢
  simp only [] at h ⊢
  have hl : l = data.reservations := by simpa using h2 (by simpa using h)
  rw [hl]

/-- An erroring `checkout_guest` persists the input store (the match's
fallback arm returns `data` untouched). -/
theorem checkout_err_unchanged (now : String) (data : HotelData) (rid : Nat)
    (c : Nat) (m : String)
    (h : (checkout_guest now data rid).1 = Outcome.err c m) :
    (checkout_guest now data rid).2 = data := by
  unfold checkout_guest at h ⊢
  split at h
  · simp at h
  · rfl

/-- C5: every operation that returns an error (404 NotFound, 400 conflict or
missing field) persists a store equal to the one before the call — no field
of any record is committed. -/
theorem error_leaves_store_unchanged :
    ∀ (data : HotelData) (op : Op) (c : Nat) (m : String),
      (applyOp data op).1 = Outcome.err c m → (applyOp data op).2 = data := by
  intro data op c m h
  cases op with
  | createRes now req => exact create_err_unchanged now data req c m h
  | updateRes rid u => exact update_err_unchanged data rid u c m h
  | deleteRes rid => exact delete_err_unchanged data rid c m h
  | checkinRes rid => exact checkin_err_unchanged data rid c m h
  | checkoutRes now rid => exact checkout_err_unchanged now data rid c m h

/-- Witness for C5: deleting a reservation that does not exist errors with
404 and leaves the default store intact. -/
theorem error_leaves_store_unchanged_witness :
    (applyOp default_data (Op.deleteRes 1)).1 =
      Outcome.err 404 "Reservation not found" ∧
    (applyOp default_data (Op.deleteRes 1)).2 = default_data :=
  ⟨rfl, error_leaves_store_unchanged default_data (Op.deleteRes 1) 404
    "Reservation not found" rfl⟩

/-! ## C6 — reservation lifecycle -/

/-- The lifecycle request: room 101, [2024-06-01, 2024-06-05). -/
def lifecycleReq : CreateReq := mkCreateReq "Dana" 101 ⟨2024, 6, 1⟩ ⟨2024, 6, 5⟩

/-- Store after create. -/
def store6a : HotelData := runOps default_data [Op.createRes "t1" lifecycleReq]

/-- Store after create and check-in. -/
def store6b : HotelData :=
  runOps default_data [Op.createRes "t1" lifecycleReq, Op.checkinRes 1]

/-- Store after create, check-in and check-out (at time "t3"). -/
def store6c : HotelData :=
  runOps default_data
    [Op.createRes "t1" lifecycleReq, Op.checkinRes 1, Op.checkoutRes "t3" 1]

/-- C6 counterexample: check-in does set status `active`, but it stamps no
check-in timestamp — after check-in the reservation's `checked_in_at` is
still absent, contradicting the claim that check-in stamps it. -/
theorem checkin_no_timestamp_cex :
    store6b.reservations.map Reservation.status = ["active"] ∧
    store6b.reservations.map Reservation.checked_in_at = [none] :=
  ⟨rfl, rfl⟩

/-- C6 amended: create yields `pending`; check-in sets `active` but records
no check-in timestamp; check-out sets `completed` and stamps the
`checkout_time` key; and after completion a new reservation on the same room
with the same dates is accepted (a second `pending` record appears beside the
`completed` one, with identical room and dates). -/
theorem lifecycle_without_checkin_stamp :
    store6a.reservations.map Reservation.status = ["pending"] ∧
    store6a.reservations.map Reservation.checkout_time = [none] ∧
    store6b.reservations.map Reservation.status = ["active"] ∧
    store6b.reservations.map Reservation.checked_in_at = [none] ∧
    store6c.reservations.map Reservation.status = ["completed"] ∧
    store6c.reservations.map Reservation.checkout_time = [some "t3"] ∧
    (create_reservation "t4" store6c lifecycleReq).2.reservations.map
      Reservation.status = ["completed", "pending"] ∧
    (create_reservation "t4" store6c lifecycleReq).2.reservations.map
      Reservation.room_number = [101, 101] ∧
    (create_reservation "t4" store6c lifecycleReq).2.reservations.map
      Reservation.check_in_date = [⟨2024, 6, 1⟩, ⟨2024, 6, 1⟩] ∧
    (create_reservation "t4" store6c lifecycleReq).2.reservations.map
      Reservation.check_out_date = [⟨2024, 6, 5⟩, ⟨2024, 6, 5⟩] :=
  ⟨rfl, rfl, rfl, rfl, rfl, rfl, rfl, rfl, rfl, rfl⟩

/-! ## C7 — update with an unknown room crashes -/

/-- The reservation "Eve" holds in `store7`: room 101,
[2024-07-01, 2024-07-04), 3 nights at 70. -/
def resEve : Reservation :=
  { id := 1, guest_name := "Eve", guest_email := "", guest_phone := "",
    room_number := 101, room_name := "AP. 2A sgr.1",
    check_in_date := ⟨2024, 7, 1⟩, check_out_date := ⟨2024, 7, 4⟩,
    nights := 3, total_price := 210, amount_paid := 0,
    payment_status := "pending", status := "pending",
    created_at := "t1", checked_in_at := none, checkout_time := none,
    notes := "" }

/-- Default store plus Eve's reservation (id 1). -/
def store7 : HotelData :=
  (create_reservation "t1" default_data
    (mkCreateReq "Eve" 101 ⟨2024, 7, 1⟩ ⟨2024, 7, 4⟩)).2

/-- C7: a patch whose `room_number` (999) matches no room makes
`update_reservation` evaluate `room['name']` on `None` — an unhandled
`TypeError`, not a structured 404 — and commits nothing (the handler dies
before `save_data`). -/
theorem update_unknown_room_crashes :
    (update_reservation store7 1 { emptyUpdate with room_number := some 999 }).1 =
      Outcome.crash "TypeError: 'NoneType' object is not subscriptable" ∧
    (update_reservation store7 1 { emptyUpdate with room_number := some 999 }).2 =
      store7 :=
  ⟨rfl, rfl⟩

/-! ## C8 — nights/price frame and recompute rule -/

/-- `update_loop` passes over a prefix containing no matching id, carrying it
into the scanned accumulator. -/
theorem update_loop_skip (rooms : List Room) (rid : Nat) (u : UpdateReq) :
    ∀ (pre2 pre rest : List Reservation),
      (∀ x ∈ pre2, x.id ≠ rid) →
      update_loop rooms rid u pre (pre2 ++ rest) =
        update_loop rooms rid u (pre ++ pre2) rest := by
  intro pre2
  induction pre2 with
  | nil => intro pre rest _; simp
  | cons x pre2 ih =>
    intro pre rest hx
    have hxid : (x.id == rid) = false := by
      simpa using hx x (List.mem_cons_self x pre2)
    rw [List.cons_append]
    simp only [update_loop, hxid]
    rw [ih (pre ++ [x]) rest (fun y hy => hx y (List.mem_cons_of_mem x hy))]
    simp [List.append_assoc]

/-- C8: an update touching none of `room_number`, `check_in_date`,
`check_out_date` leaves every reservation's `nights` and `total_price`
exactly as before; and an update touching any of them that succeeds stores a
reservation whose `nights` is recomputed from the effective dates and whose
`total_price` is the looked-up room's current price times those nights. -/
theorem update_price_recompute_rule :
    ∀ (data : HotelData) (rid : Nat) (u : UpdateReq) (pre rest : List Reservation)
      (r : Reservation) (room : Room),
      data.reservations = pre ++ r :: rest →
      (∀ x ∈ pre, x.id ≠ rid) →
      r.id = rid →
      ((u.check_in_date = none ∧ u.check_out_date = none ∧ u.room_number = none →
          (update_reservation data rid u).2.reservations.map Reservation.nights =
            data.reservations.map Reservation.nights ∧
          (update_reservation data rid u).2.reservations.map Reservation.total_price =
            data.reservations.map Reservation.total_price) ∧
       ((u.check_in_date.isSome ∨ u.check_out_date.isSome ∨ u.room_number.isSome) →
          data.rooms.find? (fun rm => rm.room_number == u.room_number.getD r.room_number) =
            some room →
          check_booking_conflict (pre ++ applyScalarUpdate r u :: rest)
            (u.room_number.getD r.room_number) (u.check_in_date.getD r.check_in_date)
            (u.check_out_date.getD r.check_out_date) (some rid) = false →
          ∃ res, (update_reservation data rid u).1 = Outcome.okRes res ∧
            res.nights = nightsBetween (u.check_in_date.getD r.check_in_date)
              (u.check_out_date.getD r.check_out_date) ∧
            res.total_price = room.price * res.nights)) := by
  intro data rid u pre rest r room hsplit hpre hid
  have hid' : (r.id == rid) = true := by simpa using hid
  have hkey : update_loop data.rooms rid u [] data.reservations =
      update_loop data.rooms rid u pre (r :: rest) := by
    rw [hsplit]
    simpa using update_loop_skip data.rooms rid u pre [] (r :: rest) hpre
  constructor
  · rintro ⟨h1, h2, h3⟩
    have hnone : (u.check_in_date.isSome || u.check_out_date.isSome ||
        u.room_number.isSome) = false := by
      simp [h1, h2, h3]
    have hstep : update_loop data.rooms rid u pre (r :: rest) =
        (Outcome.okRes (applyScalarUpdate r u),
          pre ++ applyScalarUpdate r u :: rest) := by
      simp only [update_loop, hid', if_true, hnone]
      simp
    unfold update_reservation
    rw [hkey, hstep]
    simp [hsplit, applyScalarUpdate]
  · intro hsome hfind hcf
    have hpres : (u.check_in_date.isSome || u.check_out_date.isSome ||
        u.room_number.isSome) = true := by
      rcases hsome with h | h | h <;> simp [h]
    have hstep : update_loop data.rooms rid u pre (r :: rest) =
        (Outcome.okRes
          { applyScalarUpdate r u with
            check_in_date := u.check_in_date.getD r.check_in_date,
            check_out_date := u.check_out_date.getD r.check_out_date,
            room_number := u.room_number.getD r.room_number,
            room_name := room.name,
            nights := nightsBetween (u.check_in_date.getD r.check_in_date)
              (u.check_out_date.getD r.check_out_date),
            total_price := room.price * nightsBetween
              (u.check_in_date.getD r.check_in_date)
              (u.check_out_date.getD r.check_out_date) },
          pre ++ { applyScalarUpdate r u with
            check_in_date := u.check_in_date.getD r.check_in_date,
            check_out_date := u.check_out_date.getD r.check_out_date,
            room_number := u.room_number.getD r.room_number,
            room_name := room.name,
            nights := nightsBetween (u.check_in_date.getD r.check_in_date)
              (u.check_out_date.getD r.check_out_date),
            total_price := room.price * nightsBetween
              (u.check_in_date.getD r.check_in_date)
              (u.check_out_date.getD r.check_out_date) } :: rest) := by
      simp only [update_loop, hid', if_true, hpres, applyScalarUpdate]
      simp only [applyScalarUpdate] at hcf
      rw [hcf, hfind]
      simp [applyScalarUpdate]
    unfold update_reservation
    rw [hkey, hstep]
    exact ⟨_, rfl, rfl, rfl⟩

/-- Witness for C8 at a concrete input: a notes-only update on Eve's
reservation leaves `nights` and `total_price` untouched. -/
theorem update_price_recompute_rule_witness :
    (update_reservation store7 1
      { emptyUpdate with notes := some "vip" }).2.reservations.map
      Reservation.nights = store7.reservations.map Reservation.nights ∧
    (update_reservation store7 1
      { emptyUpdate with notes := some "vip" }).2.reservations.map
      Reservation.total_price = store7.reservations.map Reservation.total_price :=
  (update_price_recompute_rule store7 1 { emptyUpdate with notes := some "vip" }
    [] [] resEve
    { room_number := 101, name := "AP. 2A sgr.1", price := 70, room_type := "Studio" }
    rfl (by simp) rfl).1 ⟨rfl, rfl, rfl⟩

/-! ## C9 — calendar month query -/

/-- A pending reservation spanning all of June 2024 (check-in in May,
check-out in July). -/
def rSpanJune : Reservation :=
  { id := 1, guest_name := "Span", guest_email := "", guest_phone := "",
    room_number := 101, room_name := "AP. 2A sgr.1",
    check_in_date := ⟨2024, 5, 20⟩, check_out_date := ⟨2024, 7, 10⟩,
    nights := 51, total_price := 3570, amount_paid := 0,
    payment_status := "pending", status := "pending",
    created_at := "t0", checked_in_at := none, checkout_time := none,
    notes := "" }

/-- A reservation whose check-out equals June's month start
(check-out 2024-06-01, exclusive). -/
def rEndsJuneFirst : Reservation :=
  { id := 1, guest_name := "May", guest_email := "", guest_phone := "",
    room_number := 101, room_name := "AP. 2A sgr.1",
    check_in_date := ⟨2024, 5, 1⟩, check_out_date := ⟨2024, 6, 1⟩,
    nights := 31, total_price := 2170, amount_paid := 0,
    payment_status := "pending", status := "pending",
    created_at := "t0", checked_in_at := none, checkout_time := none,
    notes := "" }

/-- C9 counterexample: the June 2024 calendar misses the pending reservation
that spans the whole month (claim says an overlapping reservation is
returned), yet returns the one whose check-out is exactly June 1st (claim
says a reservation with `check_out_date = month_start` is not returned). -/
theorem calendar_not_overlap_cex :
    get_calendar_data { default_data with reservations := [rSpanJune] } 2024 6 = [] ∧
    get_calendar_data { default_data with reservations := [rEndsJuneFirst] } 2024 6 =
      [rEndsJuneFirst] :=
  ⟨rfl, rfl⟩

/-- C9 amended: the calendar query returns exactly the reservations — of any
status — whose check-in date or check-out date falls inside the queried
month (`startswith` on the `YYYY-MM` string, i.e. year and month equal), not
those merely overlapping it. -/
theorem calendar_month_membership :
    ∀ (data : HotelData) (year month : Nat) (r : Reservation),
      r ∈ get_calendar_data data year month ↔
        r ∈ data.reservations ∧
          ((r.check_in_date.y = year ∧ r.check_in_date.m = month) ∨
           (r.check_out_date.y = year ∧ r.check_out_date.m = month)) := by
  intro data year month r
  simp [get_calendar_data, List.mem_filter]

/-! ## C10 — id reuse after delete -/

/-- Create on rooms 101 and 102, delete reservation 1, then create again:
the last create reuses id `len + 1 = 2`. -/
def dupOps : List Op :=
  [Op.createRes "t1" (mkCreateReq "A" 101 ⟨2024, 6, 1⟩ ⟨2024, 6, 5⟩),
   Op.createRes "t2" (mkCreateReq "B" 102 ⟨2024, 6, 1⟩ ⟨2024, 6, 5⟩),
   Op.deleteRes 1,
   Op.createRes "t3" (mkCreateReq "C" 101 ⟨2024, 6, 10⟩ ⟨2024, 6, 15⟩)]

/-- C10: a successful create always assigns `id = len(reservations) + 1`;
after `dupOps` the store holds two distinct reservations both carrying id 2,
and each id-keyed operation (update, delete, check-in, check-out) acts on
whichever matching reservation appears first in the list (room 102's record,
not room 101's). -/
theorem reservation_id_reuse :
    (∀ (now : String) (data : HotelData) (rd : CreateReq) (res : Reservation)
        (d2 : HotelData),
      create_reservation now data rd = (Outcome.okRes res, d2) →
      res.id = data.reservations.length + 1) ∧
    (runOps default_data dupOps).reservations.map Reservation.id = [2, 2] ∧
    (runOps default_data dupOps).reservations.map Reservation.room_number =
      [102, 101] ∧
    (update_reservation (runOps default_data dupOps) 2
      { emptyUpdate with notes := some "flagged" }).2.reservations.map
      (fun r => (r.id, r.room_number, r.notes)) =
      [(2, 102, "flagged"), (2, 101, "")] ∧
    (delete_reservation (runOps default_data dupOps) 2).2.reservations.map
      (fun r => (r.id, r.room_number)) = [(2, 101)] ∧
    (checkin_guest (runOps default_data dupOps) 2).2.reservations.map
      (fun r => (r.id, r.room_number, r.status)) =
      [(2, 102, "active"), (2, 101, "pending")] ∧
    (checkout_guest "t9" (runOps default_data dupOps) 2).2.reservations.map
      (fun r => (r.id, r.room_number, r.status, r.checkout_time)) =
      [(2, 102, "completed", some "t9"), (2, 101, "pending", none)] := by
  refine ⟨?_, rfl, rfl, rfl, rfl, rfl, rfl⟩
  intro now data rd res d2 h
  unfold create_reservation at h
  repeat' split at h
  all_goals simp_all
  all_goals simp [← h.1]

/-- Witness for C10's universally-quantified conjunct at a concrete input:
creating Eve's reservation on the empty default store assigns id 0 + 1. -/
theorem reservation_id_reuse_witness :
    resEve.id = default_data.reservations.length + 1 :=
  reservation_id_reuse.1 "t1" default_data
    (mkCreateReq "Eve" 101 ⟨2024, 7, 1⟩ ⟨2024, 7, 4⟩) resEve store7 rfl
